import Mathlib

/-!
Verification of the smartshop-front order pricing and order/payment
lifecycle logic.

The definitions below are a shallow embedding of the TypeScript source:
money values (JavaScript numbers) are modelled as rationals, enum-like
string unions as inductive types, and the relevant functions are
translated directly from the source files:

- `calculateTotals`, `addItem`, `updateQuantity`, `removeItem` from
  the order-creation page (CreateOrderPage);
- `totalPaid`, `remainingAmount`, `canConfirm`, `canCancel` and the
  per-payment action guard from the payments-aware order detail page
  (OrderDetailPage);
- `validate` from the add-payment form (AddPaymentPage).
-/

namespace SmartShop

/-- Client loyalty tier, from the `tier` string union of the client service. -/
inductive ClientTier where
  | BASIC
  | SILVER
  | GOLD
  | PLATINUM
deriving DecidableEq, Repr

/-- Order status string union from the order service. -/
inductive OrderStatus where
  | PENDING
  | CONFIRMED
  | CANCELED
  | REJECTED
deriving DecidableEq, Repr

/-- Payment status string union from the payment service. -/
inductive PaymentStatus where
  | EN_ATTENTE
  | ENCAISSE
  | REJETE
deriving DecidableEq, Repr

/-- Payment method string union from the payment service. -/
inductive PaymentMethod where
  | ESPECES
  | CHEQUE
  | VIREMENT
deriving DecidableEq, Repr

/-- The part of a client relevant to pricing: its loyalty tier. -/
structure Client where
  tier : ClientTier
deriving DecidableEq, Repr

/-- The part of a product relevant to the order draft: identity, name,
unit price and available stock. -/
structure Product where
  id : Int
  name : String
  price : Rat
  stock : Nat
deriving DecidableEq, Repr

/-- A line of the order-creation draft (type `OrderItem` in
CreateOrderPage): product identity, captured name, quantity, captured
unit price, and the product stock recorded when the line was added. -/
structure OrderItem where
  productId : Int
  productName : String
  quantity : Nat
  price : Rat
  stock : Nat
deriving DecidableEq, Repr

/-- The part of an order relevant to the detail page guards:
its status and its total amount. -/
structure Order where
  status : OrderStatus
  totalAmount : Rat
deriving DecidableEq, Repr

/-- The part of a payment relevant to the ledger computations:
its amount and its status. -/
structure Payment where
  amount : Rat
  paymentStatus : PaymentStatus
deriving DecidableEq, Repr

/-- Result record of `calculateTotals` in CreateOrderPage. -/
structure Totals where
  subTotal : Rat
  totalDiscount : Rat
  tax : Rat
  totalAmount : Rat
  tierDiscount : Rat
  promoDiscount : Rat
deriving DecidableEq, Repr

/-- Characters accepted by the promo-code character class [A-Z0-9]. -/
def isUpperAlnum (c : Char) : Bool :=
  (decide ('A' ≤ c) && decide (c ≤ 'Z')) || (decide ('0' ≤ c) && decide (c ≤ '9'))

/-- The promo-code regular expression of CreateOrderPage:
PROMO- followed by exactly four characters in [A-Z0-9], anchored at both
ends, here expressed over the character list of the string. -/
def isValidPromoCode (s : String) : Bool :=
  (s.data.take 6 == "PROMO-".data) &&
  ((s.data.drop 6).length == 4) &&
  (s.data.drop 6).all isUpperAlnum

/-- `calculateTotals` from CreateOrderPage, translated clause by clause:
subtotal by a left fold as in `reduce`, the tier-discount if/else-if
chain, the promo-code check, and the additive discount, 20% tax on the
post-discount taxable amount, and final total. -/
def calculateTotals (orderItems : List OrderItem) (selectedClient : Option Client)
    (promoCode : String) : Totals :=
  let subTotal : Rat :=
    orderItems.foldl (fun sum item => sum + item.price * (item.quantity : Rat)) 0
  let tierDiscount : Rat :=
    match selectedClient with
    | none => 0
    | some client =>
      if client.tier = ClientTier.SILVER ∧ 500 ≤ subTotal then subTotal * (5 / 100)
      else if client.tier = ClientTier.GOLD ∧ 800 ≤ subTotal then subTotal * (10 / 100)
      else if client.tier = ClientTier.PLATINUM ∧ 1200 ≤ subTotal then subTotal * (15 / 100)
      else 0
  let promoDiscount : Rat :=
    if promoCode ≠ "" ∧ isValidPromoCode promoCode = true then subTotal * (5 / 100) else 0
  let totalDiscount := tierDiscount + promoDiscount
  let taxableAmount := subTotal - totalDiscount
  let tax := taxableAmount * (20 / 100)
  let totalAmount := taxableAmount + tax
  { subTotal := subTotal, totalDiscount := totalDiscount, tax := tax,
    totalAmount := totalAmount, tierDiscount := tierDiscount, promoDiscount := promoDiscount }

/-- `addItem` from CreateOrderPage: if a draft line for the product
already exists, bump its quantity by one only while it is strictly below
the product stock; otherwise append a fresh line with quantity 1 that
captures the product price and stock. -/
def addItem (product : Product) (orderItems : List OrderItem) : List OrderItem :=
  match orderItems.find? (fun item => item.productId == product.id) with
  | some existingItem =>
    if existingItem.quantity < product.stock then
      orderItems.map (fun item =>
        if item.productId == product.id then
          { item with quantity := item.quantity + 1 }
        else item)
    else orderItems
  | none =>
    orderItems ++ [{ productId := product.id, productName := product.name,
                     quantity := 1, price := product.price, stock := product.stock }]

/-- `updateQuantity` from CreateOrderPage: clamp the adjusted quantity
into [1, stock] with `Math.max(1, Math.min(item.stock, item.quantity + delta))`,
computed here over the integers and converted back to a natural number. -/
def updateQuantity (productId : Int) (delta : Int) (orderItems : List OrderItem) :
    List OrderItem :=
  orderItems.map (fun item =>
    if item.productId == productId then
      { item with quantity := (max 1 (min (item.stock : Int) ((item.quantity : Int) + delta))).toNat }
    else item)

/-- `removeItem` from CreateOrderPage: drop every line of the product. -/
def removeItem (productId : Int) (orderItems : List OrderItem) : List OrderItem :=
  orderItems.filter (fun item => item.productId != productId)

/-- `totalPaid` from OrderDetailPage: the sum, by a left fold as in
`reduce`, of the amounts of the payments whose status is ENCAISSE. -/
def totalPaid (payments : List Payment) : Rat :=
  (payments.filter (fun p => p.paymentStatus == PaymentStatus.ENCAISSE)).foldl
    (fun sum p => sum + p.amount) 0

/-- `remainingAmount` from OrderDetailPage: order total minus the sum of
encashed payments. -/
def remainingAmount (order : Order) (payments : List Payment) : Rat :=
  order.totalAmount - totalPaid payments

/-- `canConfirm` from OrderDetailPage: the confirm action is offered
exactly when the order is PENDING, the user is an admin, and the
remaining amount is at most zero. -/
def canConfirm (isAdmin : Bool) (order : Order) (payments : List Payment) : Bool :=
  (order.status == OrderStatus.PENDING) && isAdmin &&
    decide (remainingAmount order payments ≤ 0)

/-- `canCancel` from OrderDetailPage: the cancel action is offered
exactly when the order is PENDING and the user is an admin. -/
def canCancel (isAdmin : Bool) (order : Order) : Bool :=
  (order.status == OrderStatus.PENDING) && isAdmin

/-- The guard on the per-payment Encash and Reject buttons in
OrderDetailPage: rendered only for an admin and only while the payment
status is EN_ATTENTE. -/
def canActOnPayment (isAdmin : Bool) (payment : Payment) : Bool :=
  isAdmin && (payment.paymentStatus == PaymentStatus.EN_ATTENTE)

/-- The payment-creation form state of AddPaymentPage
(`CreatePaymentRequest` fields as held by the form; unset text fields
are empty strings). -/
structure CreatePaymentRequest where
  amount : Rat
  paymentMethod : PaymentMethod
  reference : String
  bank : String
  chequeNumber : String
  dueDate : String
deriving DecidableEq, Repr

/-- A string is blank when it contains only whitespace; this is exactly
when the JavaScript test `!s.trim()` succeeds, which is how AddPaymentPage
tests that a required text field is missing. -/
def isBlank (s : String) : Bool :=
  s.data.all (fun c => c.isWhitespace)

/-- `validate` from AddPaymentPage, one clause per `newErrors` entry:
the amount must be positive and, when the order is loaded, at most the
order total; the reference must not be blank; CHEQUE requires bank,
cheque number and due date; VIREMENT requires bank. Returns true when
no error was recorded. -/
def validate (formData : CreatePaymentRequest) (order : Option Order) : Bool :=
  let amountErr : Bool :=
    if formData.amount ≤ 0 then true
    else
      match order with
      | some o => decide (o.totalAmount < formData.amount)
      | none => false
  let referenceErr : Bool := isBlank formData.reference
  let bankErr : Bool :=
    ((formData.paymentMethod == PaymentMethod.CHEQUE) && isBlank formData.bank) ||
    ((formData.paymentMethod == PaymentMethod.VIREMENT) && isBlank formData.bank)
  let chequeNumberErr : Bool :=
    (formData.paymentMethod == PaymentMethod.CHEQUE) && isBlank formData.chequeNumber
  let dueDateErr : Bool :=
    (formData.paymentMethod == PaymentMethod.CHEQUE) && (formData.dueDate == "")
  !(amountErr || referenceErr || bankErr || chequeNumberErr || dueDateErr)

/-- Sum of the amounts of the payments that are not REJETE. -/
def nonRejectedTotal (payments : List Payment) : Rat :=
  ((payments.filter (fun p => p.paymentStatus != PaymentStatus.REJETE)).map
    (fun p => p.amount)).sum

/-- Modelled from the spec: the payment-creation validation failure
condition as the specification states it. Validation fails exactly when
the amount is not positive, or the amount exceeds the order total minus
the sum of existing non-REJECTED payments, or a method-specific required
field is missing (CHEQUE requires bank, cheque number and due date;
VIREMENT requires bank). Stated for comparison with `validate`, the
check the source actually performs. -/
def specValidationFails (formData : CreatePaymentRequest) (order : Order)
    (existingPayments : List Payment) : Prop :=
  formData.amount ≤ 0 ∨
  order.totalAmount - nonRejectedTotal existingPayments < formData.amount ∨
  (formData.paymentMethod = PaymentMethod.CHEQUE ∧
    (isBlank formData.bank = true ∨ isBlank formData.chequeNumber = true ∨
      formData.dueDate = "")) ∨
  (formData.paymentMethod = PaymentMethod.VIREMENT ∧ isBlank formData.bank = true)

/-- The draft-line invariant of the order-creation page: product
identifiers are pairwise distinct, and every line quantity lies between 1
and the stock recorded on that line. -/
def itemsInvariant (orderItems : List OrderItem) : Prop :=
  (orderItems.map (fun item => item.productId)).Nodup ∧
  ∀ item ∈ orderItems, 1 ≤ item.quantity ∧ item.quantity ≤ item.stock

/-- A left fold adding line amounts equals the accumulator plus the sum
of the mapped amounts. -/
theorem foldl_price_eq (l : List OrderItem) (a : Rat) :
    l.foldl (fun sum item => sum + item.price * (item.quantity : Rat)) a
      = a + (l.map (fun item => item.price * (item.quantity : Rat))).sum := by
  induction l generalizing a with
  | nil => simp
  | cons x xs ih => simp [ih, add_assoc]

/-- A left fold adding payment amounts equals the accumulator plus the
sum of the mapped amounts. -/
theorem foldl_amount_eq (l : List Payment) (a : Rat) :
    l.foldl (fun sum p => sum + p.amount) a = a + (l.map (fun p => p.amount)).sum := by
  induction l generalizing a with
  | nil => simp
  | cons x xs ih => simp [ih, add_assoc]

/-- The encashed total is the sum of the amounts of the ENCAISSE payments. -/
theorem totalPaid_eq (payments : List Payment) :
    totalPaid payments
      = ((payments.filter (fun p => p.paymentStatus == PaymentStatus.ENCAISSE)).map
          (fun p => p.amount)).sum := by
  simp [totalPaid, foldl_amount_eq]

/-- The computed subtotal is the sum over the lines of price times quantity. -/
theorem calculateTotals_subTotal (orderItems : List OrderItem)
    (selectedClient : Option Client) (promoCode : String) :
    (calculateTotals orderItems selectedClient promoCode).subTotal
      = (orderItems.map (fun item => item.price * (item.quantity : Rat))).sum := by
  simp [calculateTotals, foldl_price_eq]

/-- C2: for every non-empty list of order lines, client and optional promo
code, the computed subTotal is the sum over the lines of unit price times
quantity, the tax is 20% of the post-discount taxable base, and the total
is the taxable base plus the tax; moreover at a concrete discounted order
the tax (190) differs from 20% of the pre-discount subtotal (200). -/
theorem C2_totals_formulas (orderItems : List OrderItem) (selectedClient : Option Client)
    (promoCode : String) (hne : orderItems ≠ []) :
    ((calculateTotals orderItems selectedClient promoCode).subTotal
        = (orderItems.map (fun item => item.price * (item.quantity : Rat))).sum ∧
      (calculateTotals orderItems selectedClient promoCode).tax
        = ((calculateTotals orderItems selectedClient promoCode).subTotal
            - (calculateTotals orderItems selectedClient promoCode).totalDiscount)
          * (20 / 100) ∧
      (calculateTotals orderItems selectedClient promoCode).totalAmount
        = ((calculateTotals orderItems selectedClient promoCode).subTotal
            - (calculateTotals orderItems selectedClient promoCode).totalDiscount)
          + (calculateTotals orderItems selectedClient promoCode).tax) ∧
    ((calculateTotals [⟨1, "p", 1, 1000, 1⟩] (some ⟨ClientTier.SILVER⟩) "").tax = 190 ∧
      (calculateTotals [⟨1, "p", 1, 1000, 1⟩] (some ⟨ClientTier.SILVER⟩) "").subTotal
          * (20 / 100) = 200) := by
  refine ⟨⟨calculateTotals_subTotal _ _ _, by simp [calculateTotals], by simp [calculateTotals]⟩,
    by norm_num [calculateTotals], by norm_num [calculateTotals]⟩

/-- Witness for C2 at a concrete one-line order. -/
theorem C2_witness :
    (calculateTotals [⟨1, "p", 2, 3, 5⟩] none "").subTotal
      = ([⟨1, "p", 2, 3, 5⟩].map
          (fun item : OrderItem => item.price * (item.quantity : Rat))).sum := by
  exact (C2_totals_formulas [⟨1, "p", 2, 3, 5⟩] none "" (by simp)).1.1

/-- C3: the tier discount is a threshold-gated percentage of the subtotal:
5% for SILVER exactly when the subtotal is at least 500, 10% for GOLD at
800, 15% for PLATINUM at 1200, 0 for BASIC; at most one tier rate ever
applies (the client's own), and the thresholds are exact boundaries:
a SILVER subtotal of 499.99 gets no discount while 500.00 gets 25. -/
theorem C3_tier_thresholds (orderItems : List OrderItem) (promoCode : String) (c : Client) :
    ((c.tier = ClientTier.BASIC →
        (calculateTotals orderItems (some c) promoCode).tierDiscount = 0) ∧
      (c.tier = ClientTier.SILVER →
        (calculateTotals orderItems (some c) promoCode).tierDiscount
          = if 500 ≤ (calculateTotals orderItems (some c) promoCode).subTotal
              then (calculateTotals orderItems (some c) promoCode).subTotal * (5 / 100)
              else 0) ∧
      (c.tier = ClientTier.GOLD →
        (calculateTotals orderItems (some c) promoCode).tierDiscount
          = if 800 ≤ (calculateTotals orderItems (some c) promoCode).subTotal
              then (calculateTotals orderItems (some c) promoCode).subTotal * (10 / 100)
              else 0) ∧
      (c.tier = ClientTier.PLATINUM →
        (calculateTotals orderItems (some c) promoCode).tierDiscount
          = if 1200 ≤ (calculateTotals orderItems (some c) promoCode).subTotal
              then (calculateTotals orderItems (some c) promoCode).subTotal * (15 / 100)
              else 0)) ∧
    ((calculateTotals [⟨1, "p", 1, 49999 / 100, 1⟩] (some ⟨ClientTier.SILVER⟩) "").totalDiscount
        = 0 ∧
      (calculateTotals [⟨1, "p", 1, 500, 1⟩] (some ⟨ClientTier.SILVER⟩) "").totalDiscount
        = 25) := by
  refine ⟨⟨?_, ?_, ?_, ?_⟩, by norm_num [calculateTotals], by norm_num [calculateTotals]⟩ <;>
    intro h <;> simp [calculateTotals, h]

/-- Witness for C3 at a SILVER client on a 1000 subtotal. -/
theorem C3_witness :
    (calculateTotals [⟨1, "p", 1, 1000, 1⟩] (some ⟨ClientTier.SILVER⟩) "").tierDiscount
      = if 500 ≤ (calculateTotals [⟨1, "p", 1, 1000, 1⟩] (some ⟨ClientTier.SILVER⟩) "").subTotal
          then (calculateTotals [⟨1, "p", 1, 1000, 1⟩]
              (some ⟨ClientTier.SILVER⟩) "").subTotal * (5 / 100)
          else 0 := by
  exact (C3_tier_thresholds [⟨1, "p", 1, 1000, 1⟩] "" ⟨ClientTier.SILVER⟩).1.2.1 rfl

/-- C4 counterexample: at subtotal 1000 with a PLATINUM client and a valid
promo code the code yields totalDiscount 50 — the PLATINUM threshold of
1200 is not met so only the 5% promo discount applies — and not 200 as the
claim asserts. -/
theorem C4_counterexample :
    (calculateTotals [⟨1, "p", 1, 1000, 1⟩] (some ⟨ClientTier.PLATINUM⟩)
        "PROMO-AB12").totalDiscount = 50 ∧ (50 : Rat) ≠ 200 := by
  have hv : isValidPromoCode "PROMO-AB12" = true := by decide
  have hne : ("PROMO-AB12" : String) ≠ "" := by decide
  exact ⟨by norm_num [calculateTotals, hv, hne] <;> simp, by norm_num⟩

/-- C4 amended: the total discount is always the sum of the tier discount
and the promo discount (additive, never compounded multiplicatively).
At subtotal 2000 with a PLATINUM client and a valid promo code this gives
300 + 100 = 400, and not 2000 × (1 − 0.85 × 0.95) = 385; at subtotal 1000
with a PLATINUM client the 1200 threshold is unmet, so a valid promo code
yields totalDiscount 50 (promo only), not 200. -/
theorem C4_discounts_additive (orderItems : List OrderItem) (selectedClient : Option Client)
    (promoCode : String) :
    ((calculateTotals orderItems selectedClient promoCode).totalDiscount
        = (calculateTotals orderItems selectedClient promoCode).tierDiscount
          + (calculateTotals orderItems selectedClient promoCode).promoDiscount) ∧
    ((calculateTotals [⟨1, "p", 1, 2000, 1⟩] (some ⟨ClientTier.PLATINUM⟩)
        "PROMO-AB12").tierDiscount = 300 ∧
      (calculateTotals [⟨1, "p", 1, 2000, 1⟩] (some ⟨ClientTier.PLATINUM⟩)
        "PROMO-AB12").promoDiscount = 100 ∧
      (calculateTotals [⟨1, "p", 1, 2000, 1⟩] (some ⟨ClientTier.PLATINUM⟩)
        "PROMO-AB12").totalDiscount = 400 ∧
      (400 : Rat) ≠ 2000 * (1 - (85 / 100) * (95 / 100)) ∧
      (calculateTotals [⟨1, "p", 1, 1000, 1⟩] (some ⟨ClientTier.PLATINUM⟩)
        "PROMO-AB12").totalDiscount = 50) := by
  have hv : isValidPromoCode "PROMO-AB12" = true := by decide
  have hne : ("PROMO-AB12" : String) ≠ "" := by decide
  refine ⟨by simp [calculateTotals], by norm_num [calculateTotals, hv, hne] <;> simp,
    by norm_num [calculateTotals, hv, hne] <;> simp,
    by norm_num [calculateTotals, hv, hne] <;> simp <;> norm_num,
    by norm_num, by norm_num [calculateTotals, hv, hne] <;> simp⟩

/-- Any string accepted by the promo-code pattern is non-empty. -/
theorem isValidPromoCode_ne_empty {s : String} (h : isValidPromoCode s = true) :
    s ≠ "" := by
  intro hs
  subst hs
  exact absurd h (by decide)

/-- C5: a promo code matching PROMO- followed by exactly four uppercase
alphanumeric characters grants a flat 5% of the subtotal; any other
string (including the empty one) grants zero and leaves the computation
identical to the one with no promo code at all — malformed codes are
silently ignored, never rejected. -/
theorem C5_promo_code_policy (orderItems : List OrderItem) (selectedClient : Option Client)
    (promoCode : String) :
    (isValidPromoCode promoCode = true →
      (calculateTotals orderItems selectedClient promoCode).promoDiscount
        = (calculateTotals orderItems selectedClient promoCode).subTotal * (5 / 100)) ∧
    (isValidPromoCode promoCode = false →
      (calculateTotals orderItems selectedClient promoCode).promoDiscount = 0 ∧
      calculateTotals orderItems selectedClient promoCode
        = calculateTotals orderItems selectedClient "") ∧
    (isValidPromoCode "PROMO-AB12" = true ∧ isValidPromoCode "PROMO-ab12" = false ∧
      isValidPromoCode "PROMOAB12" = false ∧ isValidPromoCode "PROMO-AB123" = false ∧
      isValidPromoCode "PROMO-AB1" = false ∧ isValidPromoCode "" = false) := by
  refine ⟨?_, ?_, by decide, by decide, by decide, by decide, by decide, by decide⟩
  · intro h
    have hne := isValidPromoCode_ne_empty h
    simp [calculateTotals, h, hne]
  · intro h
    by_cases hs : promoCode = ""
    · subst hs
      exact ⟨by simp [calculateTotals], rfl⟩
    · constructor
      · simp [calculateTotals, h]
      · simp [calculateTotals, h, hs]

/-- Witness for C5 at a valid code on a concrete order. -/
theorem C5_witness :
    (calculateTotals [⟨1, "p", 1, 100, 1⟩] none "PROMO-XY77").promoDiscount
      = (calculateTotals [⟨1, "p", 1, 100, 1⟩] none "PROMO-XY77").subTotal * (5 / 100) := by
  exact (C5_promo_code_policy [⟨1, "p", 1, 100, 1⟩] none "PROMO-XY77").1 (by decide)

/-- The distance from any rational to its own value rounded to a whole
number of hundredths is at most one hundredth. -/
theorem abs_sub_round_hundredths_le (x : Rat) :
    |x - ((round ((100 : Rat) * x) : Int) : Rat) / 100| ≤ 1 / 100 := by
  have h := abs_sub_round ((100 : Rat) * x)
  have hrw : x - ((round ((100 : Rat) * x) : Int) : Rat) / 100
      = ((100 : Rat) * x - ((round ((100 : Rat) * x) : Int) : Rat)) / 100 := by
    ring
  rw [hrw, abs_div]
  rw [show |(100 : Rat)| = 100 by norm_num]
  linarith

/-- C7 counterexample: on the single order line priced 1.111 the computed
tax is 1111/5000, which is not a whole number of minor currency units:
no rounding at all is applied to the output fields. -/
theorem C7_counterexample :
    ¬ ∃ n : Int,
      100 * (calculateTotals [⟨1, "p", 1, 1111 / 1000, 1⟩] none "").tax = (n : Rat) := by
  have htax : (calculateTotals [⟨1, "p", 1, 1111 / 1000, 1⟩] none "").tax = 1111 / 5000 := by
    norm_num [calculateTotals]
  rw [htax]
  rintro ⟨n, hn⟩
  have h2 : (1111 : Rat) = 50 * (n : Rat) := by
    field_simp at hn
    linarith
  have h3 : (1111 : Int) = 50 * n := by exact_mod_cast h2
  omega

/-- C7 amended: the output fields are not rounded at all; instead the
total is exactly the post-discount taxable base times one plus the tax
rate, and therefore lies within one minor currency unit of that product
rounded to the nearest minor unit. -/
theorem C7_total_exact (orderItems : List OrderItem) (selectedClient : Option Client)
    (promoCode : String) :
    ((calculateTotals orderItems selectedClient promoCode).totalAmount
        = ((calculateTotals orderItems selectedClient promoCode).subTotal
            - (calculateTotals orderItems selectedClient promoCode).totalDiscount)
          * (1 + 20 / 100)) ∧
    |(calculateTotals orderItems selectedClient promoCode).totalAmount
        - ((round ((100 : Rat)
              * (calculateTotals orderItems selectedClient promoCode).totalAmount) : Int) : Rat)
          / 100| ≤ 1 / 100 := by
  constructor
  · simp only [calculateTotals]
    ring
  · exact abs_sub_round_hundredths_le _

/-- C1: the confirm action is offered only while the order is PENDING with
a remaining balance at most zero; a positive remaining balance rules the
action out for every user; and an admin can confirm a PENDING order whose
encashed payments total exactly the order total. -/
theorem C1_confirm_gated_on_settled_balance (isAdmin : Bool) (order : Order)
    (payments : List Payment) :
    (canConfirm isAdmin order payments = true →
      order.status = OrderStatus.PENDING ∧ remainingAmount order payments ≤ 0) ∧
    (0 < remainingAmount order payments → canConfirm isAdmin order payments = false) ∧
    (order.status = OrderStatus.PENDING → totalPaid payments = order.totalAmount →
      canConfirm true order payments = true) := by
  refine ⟨?_, ?_, ?_⟩
  · intro h
    simp only [canConfirm, Bool.and_eq_true, beq_iff_eq, decide_eq_true_eq] at h
    exact ⟨h.1.1, h.2⟩
  · intro h
    simp only [canConfirm, Bool.and_eq_false_iff, decide_eq_false_iff_not]
    right
    linarith
  · intro hs hv
    simp [canConfirm, remainingAmount, hv, hs]

/-- Witness for C1: an admin can confirm a PENDING order of total 100 once
a payment of 100 is ENCAISSE. -/
theorem C1_witness :
    canConfirm true { status := OrderStatus.PENDING, totalAmount := 100 }
      [{ amount := 100, paymentStatus := PaymentStatus.ENCAISSE }] = true := by
  refine (C1_confirm_gated_on_settled_balance true
    { status := OrderStatus.PENDING, totalAmount := 100 }
    [{ amount := 100, paymentStatus := PaymentStatus.ENCAISSE }]).2.2 rfl ?_
  norm_num [totalPaid, List.filter]

/-- C8: starting from a pending payment in the middle of an order's
payment list, rejecting it leaves the remaining balance unchanged, while
encashing it lowers the remaining balance by exactly its amount. -/
theorem C8_reject_encash_balance_effect (order : Order) (l1 l2 : List Payment)
    (p : Payment) (hp : p.paymentStatus = PaymentStatus.EN_ATTENTE) :
    remainingAmount order
        (l1 ++ { p with paymentStatus := PaymentStatus.REJETE } :: l2)
      = remainingAmount order (l1 ++ p :: l2) ∧
    remainingAmount order
        (l1 ++ { p with paymentStatus := PaymentStatus.ENCAISSE } :: l2)
      = remainingAmount order (l1 ++ p :: l2) - p.amount := by
  constructor <;>
    simp [remainingAmount, totalPaid_eq, List.filter_append, List.filter_cons, hp] <;>
    ring

/-- Witness for C8 at a two-payment ledger. -/
theorem C8_witness :
    remainingAmount { status := OrderStatus.PENDING, totalAmount := 100 }
        ([{ amount := 30, paymentStatus := PaymentStatus.ENCAISSE }] ++
          { amount := 70, paymentStatus := PaymentStatus.REJETE } :: [])
      = remainingAmount { status := OrderStatus.PENDING, totalAmount := 100 }
        ([{ amount := 30, paymentStatus := PaymentStatus.ENCAISSE }] ++
          { amount := 70, paymentStatus := PaymentStatus.EN_ATTENTE } :: []) := by
  exact (C8_reject_encash_balance_effect { status := OrderStatus.PENDING, totalAmount := 100 }
    [{ amount := 30, paymentStatus := PaymentStatus.ENCAISSE }] []
    { amount := 70, paymentStatus := PaymentStatus.EN_ATTENTE } rfl).1

/-- C9: confirm, cancel, encash and reject are offered only to an admin;
confirm and cancel only on a PENDING order, encash and reject only on an
EN_ATTENTE payment; a non-admin, a non-PENDING order, or a settled
payment makes the corresponding actions unreachable. -/
theorem C9_admin_only_mutations (isAdmin : Bool) (order : Order)
    (payments : List Payment) (payment : Payment) :
    (canConfirm isAdmin order payments = true →
      isAdmin = true ∧ order.status = OrderStatus.PENDING) ∧
    (canCancel isAdmin order = true →
      isAdmin = true ∧ order.status = OrderStatus.PENDING) ∧
    (canActOnPayment isAdmin payment = true →
      isAdmin = true ∧ payment.paymentStatus = PaymentStatus.EN_ATTENTE) ∧
    (isAdmin = false →
      canConfirm isAdmin order payments = false ∧ canCancel isAdmin order = false ∧
        canActOnPayment isAdmin payment = false) ∧
    (order.status ≠ OrderStatus.PENDING →
      canConfirm isAdmin order payments = false ∧ canCancel isAdmin order = false) ∧
    (payment.paymentStatus ≠ PaymentStatus.EN_ATTENTE →
      canActOnPayment isAdmin payment = false) := by
  refine ⟨?_, ?_, ?_, ?_, ?_, ?_⟩ <;> intro h <;>
    simp_all [canConfirm, canCancel, canActOnPayment]

/-- Witness for C9: with a non-admin user none of the four actions is
reachable. -/
theorem C9_witness :
    canConfirm false { status := OrderStatus.PENDING, totalAmount := 100 } [] = false ∧
    canCancel false { status := OrderStatus.PENDING, totalAmount := 100 } = false ∧
    canActOnPayment false { amount := 50, paymentStatus := PaymentStatus.EN_ATTENTE }
      = false := by
  exact (C9_admin_only_mutations false { status := OrderStatus.PENDING, totalAmount := 100 }
    [] { amount := 50, paymentStatus := PaymentStatus.EN_ATTENTE }).2.2.2.1 rfl

/-- C6 counterexample: the form validation of AddPaymentPage differs from
the claimed condition in both directions. A cash payment of 10 against an
order of total 100 with no prior payments satisfies every condition the
claim lists, yet validation fails, because the form also requires a
non-blank reference; and a cash payment of 50 with a reference against an
order of total 100 that already has 80 encashed exceeds the claimed
bound total minus non-rejected payments, yet validation succeeds, because
the form only compares against the full order total. -/
theorem C6_counterexample :
    (¬ specValidationFails
        { amount := 10, paymentMethod := PaymentMethod.ESPECES, reference := "",
          bank := "", chequeNumber := "", dueDate := "" }
        { status := OrderStatus.PENDING, totalAmount := 100 } [] ∧
      validate
        { amount := 10, paymentMethod := PaymentMethod.ESPECES, reference := "",
          bank := "", chequeNumber := "", dueDate := "" }
        (some { status := OrderStatus.PENDING, totalAmount := 100 }) = false) ∧
    (specValidationFails
        { amount := 50, paymentMethod := PaymentMethod.ESPECES, reference := "REF",
          bank := "", chequeNumber := "", dueDate := "" }
        { status := OrderStatus.PENDING, totalAmount := 100 }
        [{ amount := 80, paymentStatus := PaymentStatus.ENCAISSE }] ∧
      validate
        { amount := 50, paymentMethod := PaymentMethod.ESPECES, reference := "REF",
          bank := "", chequeNumber := "", dueDate := "" }
        (some { status := OrderStatus.PENDING, totalAmount := 100 }) = true) := by
  have hblank : isBlank "" = true := by decide
  have href : isBlank "REF" = false := by decide
  refine ⟨⟨?_, ?_⟩, ?_, ?_⟩
  · intro h
    rcases h with h | h | h | h
    · norm_num at h
    · norm_num [nonRejectedTotal] at h
    · simp at h
    · simp at h
  · norm_num [validate, hblank]
  · right
    left
    have h80 : nonRejectedTotal [{ amount := 80, paymentStatus := PaymentStatus.ENCAISSE }]
        = 80 := by
      simp [nonRejectedTotal]
    rw [h80]
    norm_num
  · norm_num [validate, href] <;> simp

/-- C6 amended: the form validation succeeds exactly when the amount is
positive and at most the full order total (existing payments are not
consulted), the reference is not blank, a CHEQUE payment has a bank, a
cheque number and a due date, and a VIREMENT payment has a bank. -/
theorem C6_validate_characterization (formData : CreatePaymentRequest) (order : Order) :
    validate formData (some order) = true ↔
      (0 < formData.amount ∧ formData.amount ≤ order.totalAmount ∧
        isBlank formData.reference = false ∧
        (formData.paymentMethod = PaymentMethod.CHEQUE →
          isBlank formData.bank = false ∧ isBlank formData.chequeNumber = false ∧
            formData.dueDate ≠ "") ∧
        (formData.paymentMethod = PaymentMethod.VIREMENT →
          isBlank formData.bank = false)) := by
  by_cases h1 : formData.amount ≤ 0
  · have hpos : ¬ (0 < formData.amount) := not_lt.mpr h1
    simp [validate, h1, hpos]
  · have hpos : 0 < formData.amount := lt_of_not_le h1
    by_cases h2 : order.totalAmount < formData.amount
    · have hle : ¬ (formData.amount ≤ order.totalAmount) := not_le.mpr h2
      simp [validate, h1, h2, hpos, hle]
    · have hle : formData.amount ≤ order.totalAmount := le_of_not_lt h2
      cases hm : formData.paymentMethod <;>
        simp [validate, h1, h2, hpos, hle, hm] <;> tauto

/-- Witness for the amended C6 at a concrete well-formed cash payment. -/
theorem C6_witness :
    validate
      { amount := 50, paymentMethod := PaymentMethod.ESPECES, reference := "REF",
        bank := "", chequeNumber := "", dueDate := "" }
      (some { status := OrderStatus.PENDING, totalAmount := 100 }) = true := by
  refine (C6_validate_characterization
    { amount := 50, paymentMethod := PaymentMethod.ESPECES, reference := "REF",
      bank := "", chequeNumber := "", dueDate := "" }
    { status := OrderStatus.PENDING, totalAmount := 100 }).mpr
    ⟨by norm_num, by norm_num, by decide, by simp, by simp⟩

/-- Mapping a function that preserves product identifiers leaves the
identifier list of a draft unchanged. -/
theorem map_productId_of_preserve (f : OrderItem → OrderItem)
    (hf : ∀ item, (f item).productId = item.productId) (l : List OrderItem) :
    (l.map f).map (fun item => item.productId) = l.map (fun item => item.productId) := by
  induction l with
  | nil => rfl
  | cons x xs ih => simp [hf, ih]

/-- `addItem` preserves the draft invariant, provided the product is in
stock and any existing line for it recorded the same stock figure. -/
theorem addItem_preserves_invariant (product : Product) (orderItems : List OrderItem)
    (hinv : itemsInvariant orderItems) (hstock : 1 ≤ product.stock)
    (hrec : ∀ item ∈ orderItems, item.productId = product.id →
      item.stock = product.stock) :
    itemsInvariant (addItem product orderItems) := by
  obtain ⟨hnd, hbounds⟩ := hinv
  unfold addItem
  cases hfind : orderItems.find? (fun item => item.productId == product.id) with
  | none =>
    dsimp only
    have hnotin : ∀ item ∈ orderItems, item.productId ≠ product.id := by
      intro item hmem
      have h := List.find?_eq_none.mp hfind item hmem
      simpa using h
    constructor
    · rw [List.map_append]
      rw [List.nodup_append]
      refine ⟨hnd, by simp, ?_⟩
      simp only [List.map_cons, List.map_nil, List.disjoint_singleton]
      intro hmem
      rcases List.mem_map.mp hmem with ⟨item, hmemi, hid⟩
      exact hnotin item hmemi hid
    · intro item hmem
      rcases List.mem_append.mp hmem with h | h
      · exact hbounds item h
      · rw [List.mem_singleton] at h
        subst h
        exact ⟨le_refl 1, hstock⟩
  | some existingItem =>
    dsimp only
    have hmemEx : existingItem ∈ orderItems := List.mem_of_find?_eq_some hfind
    have hexid : existingItem.productId = product.id := by
      have h := List.find?_some hfind
      simpa using h
    by_cases hq : existingItem.quantity < product.stock
    · rw [if_pos hq]
      constructor
      · rw [map_productId_of_preserve _ ?_]
        · exact hnd
        · intro item
          by_cases h : item.productId == product.id <;> simp [h]
      · intro item2 hmem2
        rcases List.mem_map.mp hmem2 with ⟨item, hmem, rfl⟩
        by_cases hid : item.productId == product.id
        · have hid2 : item.productId = product.id := by simpa using hid
          have hitem : item = existingItem :=
            List.inj_on_of_nodup_map hnd hmem hmemEx (by rw [hid2, hexid])
          subst hitem
          have hstk : item.stock = product.stock := hrec item hmem hid2
          simp only [hid, if_pos]
          refine ⟨by omega, ?_⟩
          simp only [hstk]
          omega
        · simp only [hid, Bool.false_eq_true, if_false]
          exact hbounds item hmem
    · rw [if_neg hq]
      exact ⟨hnd, hbounds⟩

/-- `updateQuantity` preserves the draft invariant: the clamped quantity
always lands in [1, stock]. -/
theorem updateQuantity_preserves_invariant (productId delta : Int)
    (orderItems : List OrderItem) (hinv : itemsInvariant orderItems) :
    itemsInvariant (updateQuantity productId delta orderItems) := by
  obtain ⟨hnd, hbounds⟩ := hinv
  constructor
  · unfold updateQuantity
    rw [map_productId_of_preserve _ ?_]
    · exact hnd
    · intro item
      by_cases h : item.productId == productId <;> simp [h]
  · intro item2 hmem2
    unfold updateQuantity at hmem2
    rcases List.mem_map.mp hmem2 with ⟨item, hmem, rfl⟩
    obtain ⟨h1, h2⟩ := hbounds item hmem
    by_cases h : item.productId == productId
    · have hmax : (1 : Int) ≤ max 1 (min (item.stock : Int)
          ((item.quantity : Int) + delta)) := le_max_left _ _
      have hmin : max 1 (min (item.stock : Int) ((item.quantity : Int) + delta))
          ≤ (item.stock : Int) := by
        apply max_le
        · exact_mod_cast le_trans h1 h2
        · exact min_le_left _ _
      rw [if_pos h]
      constructor
      · show 1 ≤ (max 1 (min (item.stock : Int) ((item.quantity : Int) + delta))).toNat
        omega
      · show (max 1 (min (item.stock : Int) ((item.quantity : Int) + delta))).toNat
            ≤ item.stock
        omega
    · rw [if_neg h]
      exact ⟨h1, h2⟩

/-- `removeItem` preserves the draft invariant. -/
theorem removeItem_preserves_invariant (productId : Int) (orderItems : List OrderItem)
    (hinv : itemsInvariant orderItems) :
    itemsInvariant (removeItem productId orderItems) := by
  obtain ⟨hnd, hbounds⟩ := hinv
  constructor
  · unfold removeItem
    have hsub : ((orderItems.filter (fun item => item.productId != productId)).map
          (fun item => item.productId)).Sublist
        (orderItems.map (fun item => item.productId)) :=
      (List.filter_sublist _).map _
    exact hnd.sublist hsub
  · intro item hmem
    exact hbounds item (List.mem_of_mem_filter hmem)

/-- When a line for the product already exists, `addItem` never appends:
the draft keeps its length. -/
theorem addItem_length_of_mem (product : Product) (orderItems : List OrderItem)
    (h : ∃ item ∈ orderItems, item.productId = product.id) :
    (addItem product orderItems).length = orderItems.length := by
  unfold addItem
  cases hfind : orderItems.find? (fun item => item.productId == product.id) with
  | none =>
    exfalso
    obtain ⟨item, hmem, hid⟩ := h
    have hn := List.find?_eq_none.mp hfind item hmem
    simp [hid] at hn
  | some existingItem =>
    dsimp only
    by_cases hq : existingItem.quantity < product.stock
    · rw [if_pos hq, List.length_map]
    · rw [if_neg hq]

/-- C10: the order-creation draft keeps each product on at most one line
with a quantity between 1 and the recorded stock, across `addItem` (for a
product in stock whose existing line, if any, recorded the same stock),
`updateQuantity` and `removeItem`; and `addItem` on an already-listed
product never appends a new line. -/
theorem C10_draft_invariant (orderItems : List OrderItem) (product : Product)
    (productId delta : Int) (hinv : itemsInvariant orderItems)
    (hstock : 1 ≤ product.stock)
    (hrec : ∀ item ∈ orderItems, item.productId = product.id →
      item.stock = product.stock) :
    itemsInvariant (addItem product orderItems) ∧
    itemsInvariant (updateQuantity productId delta orderItems) ∧
    itemsInvariant (removeItem productId orderItems) ∧
    ((∃ item ∈ orderItems, item.productId = product.id) →
      (addItem product orderItems).length = orderItems.length) :=
  ⟨addItem_preserves_invariant product orderItems hinv hstock hrec,
    updateQuantity_preserves_invariant productId delta orderItems hinv,
    removeItem_preserves_invariant productId orderItems hinv,
    addItem_length_of_mem product orderItems⟩

/-- Witness for C10 on a one-line draft whose product line is re-added. -/
theorem C10_witness :
    itemsInvariant (addItem { id := 1, name := "a", price := 10, stock := 5 }
      [{ productId := 1, productName := "a", quantity := 2, price := 10, stock := 5 }]) := by
  refine (C10_draft_invariant
    [{ productId := 1, productName := "a", quantity := 2, price := 10, stock := 5 }]
    { id := 1, name := "a", price := 10, stock := 5 } 1 1 ?_ (by norm_num) ?_).1
  · constructor
    · simp
    · intro item hmem
      rw [List.mem_singleton] at hmem
      subst hmem
      exact ⟨by norm_num, by norm_num⟩
  · intro item hmem hid
    rw [List.mem_singleton] at hmem
    subst hmem
    rfl

end SmartShop
